import Mathlib

/-!
Verification of the win-bin two-step bottle validation workflow.

The development embeds two source files:
* `src/ai/flows/suggest-bottle-type.ts` — the classifier gateway: schema
  shapes and the dispatch flow that issues one prompt call per request.
* `src/app/dashboard/page.tsx` — the scan-session state machine: the
  `handleIdentifyBottle`, `handleConfirmDeposit` and `handleResetScanner`
  handlers and the trigger availability encoded by `renderScannerContent`.

Async handlers are embedded in two parts: a `...Start` function holding the
mutations performed before the awaited gateway call, and a `...Resolve`
function holding the mutations the promise resolution performs on whatever
session state is current when it settles. Running a handler with no
interleaved action is the composition of the two.
-/

namespace WinBin

/-- The validation-step enum of the gateway input schema,
`z.enum(['identify', 'confirm'])` in suggest-bottle-type.ts. -/
inductive ClassifyStep
  | identify
  | confirm
deriving DecidableEq, Repr

/-- One entry of the `suggestions` array of `SuggestBottleTypeOutputSchema`:
an object with a single `type` string field. -/
structure Suggestion where
  type : String
deriving DecidableEq, Repr

/-- `SuggestBottleTypeOutputSchema`: an optional list of suggestions plus the
two boolean validation flags. `suggestions` is optional in the schema, so it
is an `Option`; an absent field and an empty list are distinct values. -/
structure SuggestBottleTypeOutput where
  suggestions : Option (List Suggestion)
  isPlasticBottle : Bool
  isDeposited : Bool
deriving DecidableEq, Repr

/-- `SuggestBottleTypeInputSchema`: a data-URI encoded photo and the
requested validation step. -/
structure SuggestBottleTypeInput where
  photoDataUri : String
  validationStep : ClassifyStep
deriving DecidableEq, Repr

/-- Modelled from the spec: the failure modes of a prompt call to the
external classification service (service unreachable, output that fails
validation against the expected result shape, timeout). The genkit prompt
internals are an external collaborator and are not part of the repository
source; only the taxonomy of their failures is specified. -/
inductive ServiceError
  | unreachable
  | malformed
  | timeout
deriving DecidableEq, Repr

/-- One outbound request issued to the external classification service:
which dedicated prompt was invoked and with which photo. -/
structure PromptRequest where
  promptName : String
  photoDataUri : String
deriving DecidableEq, Repr

/-- `suggestBottleTypeFlow`: dispatches on the validation step to exactly one
of the two dedicated prompts and returns that prompt output unchanged. The
two prompt calls are parameters (they wrap the external service); the second
component is the trace of requests the flow issues. -/
def suggestBottleTypeFlow
    (identifyBottlePrompt : String → Except ServiceError SuggestBottleTypeOutput)
    (confirmDepositPrompt : String → Except ServiceError SuggestBottleTypeOutput)
    (input : SuggestBottleTypeInput) :
    Except ServiceError SuggestBottleTypeOutput × List PromptRequest :=
  match input.validationStep with
  | ClassifyStep.identify =>
      (identifyBottlePrompt input.photoDataUri,
        [{ promptName := "identifyBottlePrompt", photoDataUri := input.photoDataUri }])
  | ClassifyStep.confirm =>
      (confirmDepositPrompt input.photoDataUri,
        [{ promptName := "confirmDepositPrompt", photoDataUri := input.photoDataUri }])

/-- The dashboard page type `ValidationStep = "identify" | "confirm" | "done"`. -/
inductive ValidationStep
  | identify
  | confirm
  | done
deriving DecidableEq, Repr

/-- The dashboard interface `DetectedBottle { type: string }`. -/
structure DetectedBottle where
  type : String
deriving DecidableEq, Repr

/-- The scan-session state held by the dashboard component: the
`validationStep`, `detectedBottle` and `error` state variables.
(`isDetecting` only gates button enablement while a call is in flight and is
not part of the session outcome.) -/
structure ScanState where
  validationStep : ValidationStep
  detectedBottle : Option DetectedBottle
  error : Option String
deriving DecidableEq, Repr

/-- The initial component state: `useState("identify")`, `useState(null)`,
`useState(null)`. -/
def initialScanState : ScanState :=
  { validationStep := ValidationStep.identify, detectedBottle := none, error := none }

/-- One `addBottle(type, size)` call to the user-context ledger collaborator. -/
structure AddBottleCall where
  type : String
  size : Nat
deriving DecidableEq, Repr

/-- Error message set when the identify result is not a recognized bottle. -/
def notABottleMessage : String :=
  "This doesn\x27t look like a plastic bottle. Please try again."

/-- Error message set when the identify gateway call throws. -/
def analysisFailedMessage : String :=
  "An error occurred during analysis. Please try again."

/-- Error message set when the confirm result has `isDeposited` false. -/
def depositNotConfirmedMessage : String :=
  "Deposit not confirmed. Please ensure the bottle goes into the bin clearly."

/-- Error message set when the confirm gateway call throws. -/
def confirmationFailedMessage : String :=
  "An error occurred during confirmation. Please try again."

/-- The mutations `handleIdentifyBottle` performs before awaiting the gateway:
`setError(null); setDetectedBottle(null)`. -/
def identifyStart (s : ScanState) : ScanState :=
  { s with error := none, detectedBottle := none }

/-- The mutations the awaited `suggestBottleType` resolution performs in
`handleIdentifyBottle`, applied to whatever session state is current when the
promise settles. A successful result with `isPlasticBottle` and a non-empty
`suggestions` list records the first suggestion and moves to the confirm
step; any other result sets the not-a-bottle error; a thrown call (the
`catch` branch, covering `captureFrame` and gateway failures alike) sets the
analysis-failure error. No ledger call is made on any path. -/
def identifyResolve (s : ScanState)
    (outcome : Except Unit SuggestBottleTypeOutput) :
    ScanState × List AddBottleCall :=
  match outcome with
  | Except.error _ => ({ s with error := some analysisFailedMessage }, [])
  | Except.ok aiResult =>
    match aiResult.isPlasticBottle, aiResult.suggestions with
    | true, some (firstSuggestion :: _) =>
        ({ s with detectedBottle := some { type := firstSuggestion.type },
                  validationStep := ValidationStep.confirm }, [])
    | _, _ => ({ s with error := some notABottleMessage }, [])

/-- `handleIdentifyBottle` run to completion with no interleaved action. -/
def handleIdentifyBottle (s : ScanState)
    (outcome : Except Unit SuggestBottleTypeOutput) :
    ScanState × List AddBottleCall :=
  identifyResolve (identifyStart s) outcome

/-- The prefix of `handleConfirmDeposit` before the awaited gateway call:
the `if (!detectedBottle) return;` guard, then `setError(null)`. Returns
`none` when the guard fires, in which case no gateway call is issued;
otherwise it yields the `detectedBottle` value captured by the closure
together with the mutated state. -/
def confirmStart (s : ScanState) : Option (DetectedBottle × ScanState) :=
  match s.detectedBottle with
  | none => none
  | some detectedBottle => some (detectedBottle, { s with error := none })

/-- The mutations the awaited `suggestBottleType` resolution performs in
`handleConfirmDeposit`, applied to whatever session state is current when the
promise settles. `captured` is the `detectedBottle` value captured by the
handler closure when the call started: on `isDeposited` the ledger receives
`addBottle(captured.type, 0)` and the step becomes done; otherwise the
deposit-not-confirmed error is set; a thrown call sets the
confirmation-failure error. -/
def confirmResolve (captured : DetectedBottle) (s : ScanState)
    (outcome : Except Unit SuggestBottleTypeOutput) :
    ScanState × List AddBottleCall :=
  match outcome with
  | Except.error _ => ({ s with error := some confirmationFailedMessage }, [])
  | Except.ok aiResult =>
    if aiResult.isDeposited then
      ({ s with validationStep := ValidationStep.done },
        [{ type := captured.type, size := 0 }])
    else
      ({ s with error := some depositNotConfirmedMessage }, [])

/-- `handleConfirmDeposit` run to completion with no interleaved action. -/
def handleConfirmDeposit (s : ScanState)
    (outcome : Except Unit SuggestBottleTypeOutput) :
    ScanState × List AddBottleCall :=
  match confirmStart s with
  | none => (s, [])
  | some (captured, s1) => confirmResolve captured s1 outcome

/-- `handleResetScanner`: `setError(null); setDetectedBottle(null);
setValidationStep("identify")`. -/
def handleResetScanner (s : ScanState) : ScanState :=
  { s with error := none, detectedBottle := none,
           validationStep := ValidationStep.identify }

/-- One user-triggered action on the scan session, restricted to the triggers
`renderScannerContent` actually offers: the Scan Bottle button only in the
identify step with no error shown, Confirm Deposit only in the confirm step
with no error shown, and a reset (Try Again / Cancel / Scan Another Bottle)
from any state. -/
inductive ScanTrigger : ScanState → ScanState → Prop
  | identifyTrigger (s : ScanState) (o : Except Unit SuggestBottleTypeOutput)
      (herr : s.error = none)
      (hphase : s.validationStep = ValidationStep.identify) :
      ScanTrigger s (handleIdentifyBottle s o).1
  | confirmTrigger (s : ScanState) (o : Except Unit SuggestBottleTypeOutput)
      (herr : s.error = none)
      (hphase : s.validationStep = ValidationStep.confirm) :
      ScanTrigger s (handleConfirmDeposit s o).1
  | resetTrigger (s : ScanState) : ScanTrigger s (handleResetScanner s)

/-- A session state reachable from the initial state by UI triggers. -/
def Reachable (s : ScanState) : Prop :=
  Relation.ReflTransGen ScanTrigger initialScanState s

/-- A concrete successful identify output used in witnesses. -/
def cokeOutput : SuggestBottleTypeOutput :=
  { suggestions := some [{ type := "Coca-Cola" }],
    isPlasticBottle := true, isDeposited := false }

/-- A concrete successful confirm output used in witnesses. -/
def depositOutput : SuggestBottleTypeOutput :=
  { suggestions := none, isPlasticBottle := false, isDeposited := true }

/-- A service output violating the step-irrelevant-field conventions for the
identify step: it asserts a deposit together with a bottle suggestion. -/
def conventionBreakingOutput : SuggestBottleTypeOutput :=
  { suggestions := some [{ type := "Coca-Cola" }],
    isPlasticBottle := true, isDeposited := true }

/-- What an outstanding `suggestBottleType` call will do when it settles:
the identify handler resolution, or the confirm handler resolution with the
detected bottle captured by its closure. -/
inductive PendingCall
  | identifyCall
  | confirmCall (captured : DetectedBottle)
deriving DecidableEq, Repr

/-- The dashboard component state at interleaving granularity: the scan
session, the `isDetecting` flag, and the outstanding gateway call, if any. -/
structure PageState where
  scan : ScanState
  isDetecting : Bool
  pending : Option PendingCall
deriving DecidableEq, Repr

/-- The initial component state: no error, no detected bottle, identify
step, not detecting, no call outstanding. -/
def initialPageState : PageState :=
  { scan := initialScanState, isDetecting := false, pending := none }

/-- The events the page can process: a click on one of the three kinds of
buttons, or the settlement of the outstanding gateway call. -/
inductive PageEvent
  | clickIdentify
  | clickConfirm
  | clickReset
  | resolve (o : Except Unit SuggestBottleTypeOutput)

/-- Whether `renderScannerContent` offers a control that invokes
`handleResetScanner`: nothing but a spinner is rendered while `isDetecting`
is true; with an error shown, the Try Again button resets in any step;
otherwise the confirm step offers Cancel and the done step offers Scan
Another Bottle. The identify view with no error has no reset control. -/
def resetAvailable (s : PageState) : Prop :=
  s.isDetecting = false ∧
    (s.scan.error ≠ none ∨ s.scan.validationStep = ValidationStep.confirm ∨
      s.scan.validationStep = ValidationStep.done)

/-- One interleaving-level step of the dashboard page. A click is enabled
only when `renderScannerContent` renders its control, and
`setIsDetecting(true)` runs synchronously before the await, so while a call
is outstanding only the spinner is rendered and no click is enabled. A click
runs its handler up to the await and records the outstanding call (the
confirm click with no detected bottle returns at the guard without starting
one); `resolve` settles the outstanding call by running the resolution on
the then-current state, and the `finally` block clears `isDetecting`. -/
inductive PageStep : PageState → PageEvent → PageState → Prop
  | clickIdentify (s : PageState)
      (hdet : s.isDetecting = false) (herr : s.scan.error = none)
      (hphase : s.scan.validationStep = ValidationStep.identify) :
      PageStep s PageEvent.clickIdentify
        { scan := identifyStart s.scan, isDetecting := true,
          pending := some PendingCall.identifyCall }
  | clickConfirmGuard (s : PageState)
      (hdet : s.isDetecting = false) (herr : s.scan.error = none)
      (hphase : s.scan.validationStep = ValidationStep.confirm)
      (hnone : s.scan.detectedBottle = none) :
      PageStep s PageEvent.clickConfirm s
  | clickConfirmStart (s : PageState) (b : DetectedBottle)
      (hdet : s.isDetecting = false) (herr : s.scan.error = none)
      (hphase : s.scan.validationStep = ValidationStep.confirm)
      (hsome : s.scan.detectedBottle = some b) :
      PageStep s PageEvent.clickConfirm
        { scan := { s.scan with error := none }, isDetecting := true,
          pending := some (PendingCall.confirmCall b) }
  | clickReset (s : PageState) (h : resetAvailable s) :
      PageStep s PageEvent.clickReset
        { scan := handleResetScanner s.scan, isDetecting := s.isDetecting,
          pending := s.pending }
  | resolveIdentify (s : PageState) (o : Except Unit SuggestBottleTypeOutput)
      (hp : s.pending = some PendingCall.identifyCall) :
      PageStep s (PageEvent.resolve o)
        { scan := (identifyResolve s.scan o).1, isDetecting := false,
          pending := none }
  | resolveConfirm (s : PageState) (b : DetectedBottle)
      (o : Except Unit SuggestBottleTypeOutput)
      (hp : s.pending = some (PendingCall.confirmCall b)) :
      PageStep s (PageEvent.resolve o)
        { scan := (confirmResolve b s.scan o).1, isDetecting := false,
          pending := none }

/-- A page state reachable from the initial page state by any sequence of
page events. -/
def ReachablePage (s : PageState) : Prop :=
  Relation.ReflTransGen (fun a b => ∃ e, PageStep a e b) initialPageState s

/-- Claim C6: invoking reset from any session state yields the state with
step identify, no detected bottle and no error, and reset is idempotent. -/
theorem resetScanner_yields_initial :
    (∀ s : ScanState, handleResetScanner s = initialScanState) ∧
    (∀ s : ScanState,
      handleResetScanner (handleResetScanner s) = handleResetScanner s) :=
  ⟨fun _ => rfl, fun _ => rfl⟩

/-- Claim C3: an identify trigger whose gateway result has `isPlasticBottle`
true and a non-empty suggestion list moves the session from the identify step
to the confirm step, records exactly the first suggestion as the detected
bottle, clears the error, and emits nothing to the ledger. -/
theorem identify_success (s : ScanState) (f : Suggestion) (rest : List Suggestion)
    (r : SuggestBottleTypeOutput)
    (hphase : s.validationStep = ValidationStep.identify)
    (hpb : r.isPlasticBottle = true)
    (hsug : r.suggestions = some (f :: rest)) :
    handleIdentifyBottle s (Except.ok r) =
      ({ validationStep := ValidationStep.confirm,
         detectedBottle := some { type := f.type }, error := none }, []) := by
  obtain ⟨sugs, ipb, idep⟩ := r
  simp only at hpb hsug
  subst hpb hsug
  rfl

/-- Witness for identify_success at the initial state and a concrete result. -/
theorem identify_success_witness :
    handleIdentifyBottle initialScanState (Except.ok cokeOutput) =
      ({ validationStep := ValidationStep.confirm,
         detectedBottle := some { type := "Coca-Cola" }, error := none }, []) :=
  identify_success initialScanState { type := "Coca-Cola" } [] cokeOutput rfl rfl rfl

/-- Claim C4: an identify trigger whose gateway result has `isPlasticBottle`
false, or no suggestion list, or an empty one, leaves the session in the
identify step with no detected bottle, sets the not-a-bottle error, and
emits nothing to the ledger. -/
theorem identify_rejection (s : ScanState) (r : SuggestBottleTypeOutput)
    (hphase : s.validationStep = ValidationStep.identify)
    (hno : r.isPlasticBottle = false ∨ r.suggestions = none ∨
      r.suggestions = some []) :
    handleIdentifyBottle s (Except.ok r) =
      ({ validationStep := ValidationStep.identify, detectedBottle := none,
         error := some notABottleMessage }, []) := by
  obtain ⟨sugs, ipb, idep⟩ := r
  simp only at hno
  cases ipb with
  | false => simp [handleIdentifyBottle, identifyStart, identifyResolve, hphase]
  | true =>
    rcases sugs with _ | (_ | ⟨a, t⟩)
    · simp [handleIdentifyBottle, identifyStart, identifyResolve, hphase]
    · simp [handleIdentifyBottle, identifyStart, identifyResolve, hphase]
    · rcases hno with h | h | h <;> simp at h

/-- Witness for identify_rejection at the initial state with a result whose
suggestion list is absent. -/
theorem identify_rejection_witness :
    handleIdentifyBottle initialScanState
        (Except.ok { suggestions := none, isPlasticBottle := false,
                     isDeposited := false }) =
      ({ validationStep := ValidationStep.identify, detectedBottle := none,
         error := some notABottleMessage }, []) :=
  identify_rejection initialScanState
    { suggestions := none, isPlasticBottle := false, isDeposited := false }
    rfl (Or.inl rfl)

/-- Claim C7: when the gateway call throws during an identify trigger, the
session stays in the identify step, the error becomes the generic
analysis-failure message, and nothing is emitted to the ledger. -/
theorem identify_gateway_failure (s : ScanState)
    (hphase : s.validationStep = ValidationStep.identify) :
    handleIdentifyBottle s (Except.error ()) =
      ({ validationStep := ValidationStep.identify, detectedBottle := none,
         error := some analysisFailedMessage }, []) := by
  simp [handleIdentifyBottle, identifyStart, identifyResolve, hphase]

/-- Witness for identify_gateway_failure at the initial state. -/
theorem identify_gateway_failure_witness :
    handleIdentifyBottle initialScanState (Except.error ()) =
      ({ validationStep := ValidationStep.identify, detectedBottle := none,
         error := some analysisFailedMessage }, []) :=
  identify_gateway_failure initialScanState rfl

/-- Claim C2: a confirm trigger from the confirm step with a captured
detected bottle, whose gateway result has `isDeposited` true, emits exactly
one ledger call whose label is the captured detected-bottle type (the result
fields other than `isDeposited` do not appear in the emission), moves the
session to the done step with the error cleared, and preserves the detected
bottle. -/
theorem confirmDeposit_success (s : ScanState) (b : DetectedBottle)
    (r : SuggestBottleTypeOutput)
    (hphase : s.validationStep = ValidationStep.confirm)
    (hdb : s.detectedBottle = some b)
    (hdep : r.isDeposited = true) :
    handleConfirmDeposit s (Except.ok r) =
      ({ validationStep := ValidationStep.done, detectedBottle := some b,
         error := none }, [{ type := b.type, size := 0 }]) := by
  obtain ⟨sugs, ipb, idep⟩ := r
  simp only at hdep
  subst hdep
  simp [handleConfirmDeposit, confirmStart, confirmResolve, hdb, hphase]

/-- Witness for confirmDeposit_success at a confirm-step state holding a
detected water bottle. -/
theorem confirmDeposit_success_witness :
    handleConfirmDeposit
        { validationStep := ValidationStep.confirm,
          detectedBottle := some { type := "Water Bottle" }, error := none }
        (Except.ok depositOutput) =
      ({ validationStep := ValidationStep.done,
         detectedBottle := some { type := "Water Bottle" }, error := none },
        [{ type := "Water Bottle", size := 0 }]) :=
  confirmDeposit_success
    { validationStep := ValidationStep.confirm,
      detectedBottle := some { type := "Water Bottle" }, error := none }
    { type := "Water Bottle" } depositOutput rfl rfl rfl

/-- Claim C5: a confirm trigger from the confirm step with a captured
detected bottle, whose gateway result has `isDeposited` false, keeps the
session in the confirm step, leaves the detected bottle unchanged, sets the
deposit-not-confirmed error, and emits nothing to the ledger. -/
theorem confirmDeposit_rejection (s : ScanState) (b : DetectedBottle)
    (r : SuggestBottleTypeOutput)
    (hphase : s.validationStep = ValidationStep.confirm)
    (hdb : s.detectedBottle = some b)
    (hdep : r.isDeposited = false) :
    handleConfirmDeposit s (Except.ok r) =
      ({ validationStep := ValidationStep.confirm,
         detectedBottle := s.detectedBottle,
         error := some depositNotConfirmedMessage }, []) := by
  obtain ⟨sugs, ipb, idep⟩ := r
  simp only at hdep
  subst hdep
  simp [handleConfirmDeposit, confirmStart, confirmResolve, hdb, hphase]

/-- Witness for confirmDeposit_rejection at a confirm-step state holding a
detected water bottle. -/
theorem confirmDeposit_rejection_witness :
    handleConfirmDeposit
        { validationStep := ValidationStep.confirm,
          detectedBottle := some { type := "Water Bottle" }, error := none }
        (Except.ok cokeOutput) =
      ({ validationStep := ValidationStep.confirm,
         detectedBottle := some { type := "Water Bottle" },
         error := some depositNotConfirmedMessage }, []) :=
  confirmDeposit_rejection
    { validationStep := ValidationStep.confirm,
      detectedBottle := some { type := "Water Bottle" }, error := none }
    { type := "Water Bottle" } cokeOutput rfl rfl rfl

/-- Any single UI trigger preserves the invariant that a session in the
confirm step holds a detected bottle. -/
lemma scanTrigger_preserves_detected {a b : ScanState} (h : ScanTrigger a b)
    (ha : a.validationStep = ValidationStep.confirm → a.detectedBottle ≠ none) :
    b.validationStep = ValidationStep.confirm → b.detectedBottle ≠ none := by
  cases h with
  | identifyTrigger o herr hphase =>
    cases o with
    | error e =>
      simp [handleIdentifyBottle, identifyStart, identifyResolve, hphase]
    | ok r =>
      obtain ⟨sugs, ipb, idep⟩ := r
      cases ipb with
      | false =>
        simp [handleIdentifyBottle, identifyStart, identifyResolve, hphase]
      | true =>
        rcases sugs with _ | (_ | ⟨f, t⟩) <;>
          simp [handleIdentifyBottle, identifyStart, identifyResolve, hphase]
  | confirmTrigger o herr hphase =>
    have hdb : a.detectedBottle ≠ none := ha hphase
    rcases hsome : a.detectedBottle with _ | b0
    · exact absurd hsome hdb
    cases o with
    | error e =>
      simp [handleConfirmDeposit, confirmStart, confirmResolve, hsome]
    | ok r =>
      obtain ⟨sugs, ipb, idep⟩ := r
      cases idep <;>
        simp [handleConfirmDeposit, confirmStart, confirmResolve, hsome]
  | resetTrigger =>
    simp [handleResetScanner]

/-- Claim C10: in every session state reachable through the UI triggers, the
confirm step implies a detected bottle is recorded; and a confirm trigger
fired with no detected bottle is a no-op: the guard returns before the
gateway call, so the state is unchanged, nothing is emitted, and the result
does not depend on any gateway outcome. -/
theorem confirming_has_detected_and_guard :
    (∀ s : ScanState, Reachable s →
      s.validationStep = ValidationStep.confirm → s.detectedBottle ≠ none) ∧
    (∀ (s : ScanState) (o : Except Unit SuggestBottleTypeOutput),
      s.detectedBottle = none → handleConfirmDeposit s o = (s, [])) := by
  constructor
  · intro s h
    induction h with
    | refl => intro h; exact absurd h (by decide)
    | tail _ hstep ih => exact scanTrigger_preserves_detected hstep ih
  · intro s o hdb
    simp [handleConfirmDeposit, confirmStart, hdb]

/-- Witness for confirming_has_detected_and_guard: the state reached by one
successful identify trigger is in the confirm step and holds a detected
bottle, and a confirm trigger at the initial state (which holds none) leaves
the state unchanged with no emission. -/
theorem confirming_has_detected_and_guard_witness :
    (handleIdentifyBottle initialScanState (Except.ok cokeOutput)).1.detectedBottle ≠
        none ∧
    handleConfirmDeposit initialScanState (Except.ok depositOutput) =
      (initialScanState, []) :=
  ⟨confirming_has_detected_and_guard.1
      (handleIdentifyBottle initialScanState (Except.ok cokeOutput)).1
      (Relation.ReflTransGen.single
        (ScanTrigger.identifyTrigger initialScanState (Except.ok cokeOutput) rfl rfl))
      rfl,
   confirming_has_detected_and_guard.2 initialScanState (Except.ok depositOutput) rfl⟩

/-- Any page step preserves the invariant that an outstanding call implies
the `isDetecting` flag is set: a click that starts a call sets the flag
before the await, and the `finally` block clears it only when the call has
settled and is no longer outstanding. -/
lemma pageStep_pending_detecting {a : PageState} {e : PageEvent} {b : PageState}
    (h : PageStep a e b) (ha : a.pending ≠ none → a.isDetecting = true) :
    b.pending ≠ none → b.isDetecting = true := by
  cases h with
  | clickIdentify hdet herr hphase => intro _; rfl
  | clickConfirmGuard hdet herr hphase hnone => exact ha
  | clickConfirmStart b hdet herr hphase hsome => intro _; rfl
  | clickReset h => exact ha
  | resolveIdentify o hp => intro hne; exact absurd rfl hne
  | resolveConfirm b o hp => intro hne; exact absurd rfl hne

/-- In every reachable page state, an outstanding gateway call implies the
`isDetecting` flag is set, so only the spinner is rendered. -/
lemma reachablePage_pending_detecting (s : PageState) (h : ReachablePage s) :
    s.pending ≠ none → s.isDetecting = true := by
  induction h with
  | refl => intro hne; exact absurd rfl hne
  | tail _ hstep ih =>
    obtain ⟨e, hstep⟩ := hstep
    exact pageStep_pending_detecting hstep ih

/-- Claim C1: in every execution of the page, a reset never occurs while a
classify call is outstanding, so no resolution of a stale call can ever act
on a post-reset session: whenever a call is outstanding, `isDetecting` is
true and `renderScannerContent` renders only the spinner, offering no reset
control, so every reset step the page can take happens with no call
outstanding, and the guard requirement is satisfied. -/
theorem no_reset_while_call_outstanding :
    (∀ s t : PageState, ReachablePage s → PageStep s PageEvent.clickReset t →
      s.pending = none) ∧
    (∀ s : PageState, ReachablePage s → s.pending ≠ none →
      ¬ resetAvailable s) := by
  constructor
  · intro s t hs hstep
    cases hstep with
    | clickReset h =>
      by_contra hne
      have hdet := reachablePage_pending_detecting s hs hne
      rw [h.1] at hdet
      exact Bool.noConfusion hdet
  · intro s hs hp hav
    have hdet := reachablePage_pending_detecting s hs hp
    rw [hav.1] at hdet
    exact Bool.noConfusion hdet

/-- Witness for no_reset_while_call_outstanding: the state reached by a
failed identify call (whose Try Again button permits a reset) indeed has no
outstanding call when the reset fires, and the state in which an identify
call is outstanding offers no reset control. -/
theorem no_reset_while_call_outstanding_witness :
    (⟨⟨ValidationStep.identify, none, some analysisFailedMessage⟩, false, none⟩ :
        PageState).pending = none ∧
    ¬ resetAvailable
        ⟨identifyStart initialScanState, true, some PendingCall.identifyCall⟩ := by
  constructor
  · exact no_reset_while_call_outstanding.1
      ⟨⟨ValidationStep.identify, none, some analysisFailedMessage⟩, false, none⟩
      ⟨handleResetScanner ⟨ValidationStep.identify, none, some analysisFailedMessage⟩,
        false, none⟩
      (Relation.ReflTransGen.tail
        (Relation.ReflTransGen.single
          ⟨PageEvent.clickIdentify, PageStep.clickIdentify initialPageState rfl rfl rfl⟩)
        ⟨PageEvent.resolve (Except.error ()),
          PageStep.resolveIdentify
            ⟨identifyStart initialScanState, true, some PendingCall.identifyCall⟩
            (Except.error ()) rfl⟩)
      (PageStep.clickReset
        ⟨⟨ValidationStep.identify, none, some analysisFailedMessage⟩, false, none⟩
        ⟨rfl, Or.inl (by simp)⟩)
  · exact no_reset_while_call_outstanding.2
      ⟨identifyStart initialScanState, true, some PendingCall.identifyCall⟩
      (Relation.ReflTransGen.single
        ⟨PageEvent.clickIdentify, PageStep.clickIdentify initialPageState rfl rfl rfl⟩)
      (by simp)

/-- Claim C8: per call, the flow issues exactly one request to the external
service — the dedicated prompt selected by the validation step, applied to
the input photo — and it fails with a ServiceError exactly when that single
prompt call fails, propagating the same error with no internal retry. -/
theorem classify_single_request_and_failure
    (identifyBottlePrompt confirmDepositPrompt :
      String → Except ServiceError SuggestBottleTypeOutput)
    (input : SuggestBottleTypeInput) :
    (suggestBottleTypeFlow identifyBottlePrompt confirmDepositPrompt input).2.length
        = 1 ∧
    (∀ e : ServiceError,
      (suggestBottleTypeFlow identifyBottlePrompt confirmDepositPrompt input).1
          = Except.error e ↔
        (match input.validationStep with
         | ClassifyStep.identify => identifyBottlePrompt input.photoDataUri
         | ClassifyStep.confirm => confirmDepositPrompt input.photoDataUri)
          = Except.error e) := by
  obtain ⟨uri, step⟩ := input
  cases step <;> exact ⟨rfl, fun e => Iff.rfl⟩

/-- Claim C9: the flow returns the parsed output of the selected prompt
unchanged for both steps — no post-parse override of any field, in
particular no forcing of `isDeposited` for the identify step and no forcing
of `isPlasticBottle` or clearing of `suggestions` for the confirm step. -/
theorem classify_returns_output_unchanged
    (identifyBottlePrompt confirmDepositPrompt :
      String → Except ServiceError SuggestBottleTypeOutput)
    (input : SuggestBottleTypeInput) (r : SuggestBottleTypeOutput)
    (h : (match input.validationStep with
          | ClassifyStep.identify => identifyBottlePrompt input.photoDataUri
          | ClassifyStep.confirm => confirmDepositPrompt input.photoDataUri)
        = Except.ok r) :
    (suggestBottleTypeFlow identifyBottlePrompt confirmDepositPrompt input).1
      = Except.ok r := by
  obtain ⟨uri, step⟩ := input
  cases step <;> exact h

/-- Witness for classify_returns_output_unchanged: an identify-step call
whose prompt yields `isDeposited` true is returned as is — the flow does not
zero out the step-irrelevant field. -/
theorem classify_returns_output_unchanged_witness :
    (suggestBottleTypeFlow (fun _ => Except.ok conventionBreakingOutput)
        (fun _ => Except.error ServiceError.timeout)
        { photoDataUri := "data:image/jpeg;base64,AAAA",
          validationStep := ClassifyStep.identify }).1
      = Except.ok conventionBreakingOutput :=
  classify_returns_output_unchanged
    (fun _ => Except.ok conventionBreakingOutput)
    (fun _ => Except.error ServiceError.timeout)
    { photoDataUri := "data:image/jpeg;base64,AAAA",
      validationStep := ClassifyStep.identify }
    conventionBreakingOutput rfl

end WinBin
